import Mathlib

/-!
Shallow embedding of the geteai autonomous-agent core: the RIVER wake-cycle
decision step and state evolution (src/functions/index.js and
src/functions/river-mind.js, with the river voice module in src/unnamed),
and the ENTITY memory, identity, session and reflection engine
(src/functions/entity-core.js, src/functions/entity-voice.js).
External collaborators (the document store, the text-generation service,
the random source) appear as explicit parameters; JS numbers are modelled
as Rat and millisecond timestamps as Int.
-/

namespace Geteai

/-- Agent state for RIVER, the river/state document of river-mind.js. -/
structure RiverState where
  mood : String
  energy : ℚ
  focus : String
  lastSpoke : Option Int
  messageCount24h : ℕ
  currentWorld : Option String
  heartbeatCount : ℕ
  deriving DecidableEq, Repr

/-- An unresolved mention assembled by getPerception in the river voice module. -/
structure Mention where
  id : String
  from_ : String
  text : String
  timestamp : Int
  deriving DecidableEq, Repr

/-- An unread notification (a comment on a RIVER post) from getPerception. -/
structure Notification where
  id : String
  commenter : String
  postTitle : String
  comment : String
  postId : String
  postType : String
  deriving DecidableEq, Repr

/-- The perception snapshot returned by getPerception. -/
structure Perception where
  text : String
  mentions : List Mention
  notifications : List Notification
  activeUsers : List String
  timeOfDay : String
  hour : ℕ
  dayName : String
  deriving DecidableEq, Repr

/-- The structured result of decideIntent, the external reasoning call. -/
structure Intent where
  intent : String
  reason : String
  deriving DecidableEq, Repr

/-- The decision value produced by the decide step of riverHeartbeat.
A none result is the rest branch (the decision variable stays null). -/
inductive Decision where
  | respond (to_ : Mention)
  | reply_comment (notification : Notification)
  | think (reason : String)
  | dream (reason : String)
  | enter_world (reason : String)
  | speak (channel : String) (reason : String)
  deriving DecidableEq, Repr

/-- The decide step of riverHeartbeat in index.js (lines 36 to 64): mentions
override everything, then notifications, then the intent returned by the
external reasoning collaborator is mapped onto a decision.  The agent state
is passed through (the code hands it to decideIntent) but the priority
logic itself never consults it. -/
def riverDecide (_state : RiverState) (perception : Perception) (intent : Intent) :
    Option Decision :=
  match perception.mentions with
  | m :: _ => some (Decision.respond m)
  | [] =>
    match perception.notifications with
    | n :: _ => some (Decision.reply_comment n)
    | [] =>
      if intent.intent = "rest" then none
      else if intent.intent = "think" then some (Decision.think intent.reason)
      else if intent.intent = "dream" then some (Decision.dream intent.reason)
      else if intent.intent = "world" then some (Decision.enter_world intent.reason)
      else some (Decision.speak intent.intent intent.reason)

/-- The fallback intent produced by the catch branch of decideIntent when the
external reasoning call fails. -/
def intentErrorFallback : Intent :=
  { intent := "rest", reason := "Error in decision making" }

/-- Mood list used by the 5 percent mood drift in updateState. -/
def moods : List String :=
  ["excited", "curious", "peaceful", "melancholic", "restless", "contemplative"]

/-- State evolution of river-mind.js updateState, written field by field.
didSpeak drives the energy update (minus 0.1 floored at 0 when spoken,
plus 0.02 capped at 1.0 otherwise), lastSpoke and messageCount24h are set
only when spoken, worldChange leave clears the current world, the mood
drifts with probability 0.05 (moodRoll below 1/20, drawn index moodIndex),
and a truthy newFocus overwrites focus. -/
def updateState (oldState : RiverState) (didSpeak : Bool) (newFocus : Option String)
    (worldChange : Option String) (now : Int) (moodRoll : ℚ) (moodIndex : Fin 6) :
    RiverState where
  energy :=
    if didSpeak then max 0 (oldState.energy - 1/10) else min 1 (oldState.energy + 1/50)
  lastSpoke := if didSpeak then some now else oldState.lastSpoke
  messageCount24h :=
    if didSpeak then oldState.messageCount24h + 1 else oldState.messageCount24h
  currentWorld := if worldChange = some "leave" then none else oldState.currentWorld
  mood := if moodRoll < 1/20 then moods.get (Fin.cast (by rfl) moodIndex) else oldState.mood
  focus :=
    match newFocus with
    | some f => if f ≠ "" then f else oldState.focus
    | none => oldState.focus
  heartbeatCount := oldState.heartbeatCount

/-- One evolution of the cycle: the didSpeak outcome together with the inputs
updateState receives from the cycle and from the random source. -/
structure EvolveStep where
  didSpeak : Bool
  newFocus : Option String
  worldChange : Option String
  now : Int
  moodRoll : ℚ
  moodIndex : Fin 6

/-- Apply one evolution step. -/
def applyStep (s : RiverState) (st : EvolveStep) : RiverState :=
  updateState s st.didSpeak st.newFocus st.worldChange st.now st.moodRoll st.moodIndex

/-- A sequence of state evolutions, one cycle after another. -/
def evolveSeq (s : RiverState) (steps : List EvolveStep) : RiverState :=
  steps.foldl applyStep s

/-- Helper: the decide step on a perception whose mention list is nonempty
returns respond on its first element, whatever the state and intent. -/
lemma riverDecide_cons (state : RiverState) (p : Perception) (intent : Intent)
    (m : Mention) (ms : List Mention) (h : p.mentions = m :: ms) :
    riverDecide state p intent = some (Decision.respond m) := by
  unfold riverDecide
  rw [h]

/-- Sample state used to instantiate universally quantified theorems. -/
def rState0 : RiverState :=
  { mood := "curious", energy := 8/10, focus := "awakening", lastSpoke := none,
    messageCount24h := 0, currentWorld := none, heartbeatCount := 0 }

/-- Sample state with the daily quota exceeded. -/
def rStateQuota : RiverState :=
  { mood := "curious", energy := 8/10, focus := "awakening", lastSpoke := none,
    messageCount24h := 60, currentWorld := none, heartbeatCount := 0 }

/-- Sample mention. -/
def mention0 : Mention :=
  { id := "m2", from_ := "alice", text := "hey river", timestamp := 2 }

/-- Sample notification. -/
def notification0 : Notification :=
  { id := "n1", commenter := "bob", postTitle := "t", comment := "c",
    postId := "p", postType := "posts" }

/-- C1: whenever the perception carries at least one unresolved mention, the
decide step of riverHeartbeat yields respond on that mention, for every agent
state (any energy, any mood, any messageCount24h including quota-exceeded
values), every pending notification list and every intent the randomized or
external branch could later produce: the mention branch is decided first. -/
theorem riverDecide_mention_overrides (state : RiverState) (p : Perception)
    (intent : Intent) (m : Mention) (ms : List Mention) (h : p.mentions = m :: ms) :
    riverDecide state p intent = some (Decision.respond m) :=
  riverDecide_cons state p intent m ms h

/-- Witness for C1: a concrete quota-exceeded state with a pending
notification still yields respond on the mention. -/
theorem riverDecide_mention_overrides_witness :
    riverDecide rStateQuota
      { text := "", mentions := [mention0], notifications := [notification0],
        activeUsers := ["alice"], timeOfDay := "night", hour := 0, dayName := "Sunday" }
      { intent := "wire", reason := "chatty" } = some (Decision.respond mention0) :=
  riverDecide_mention_overrides rStateQuota _ _ mention0 [] rfl

/-- Helper: a spoken evolution sets energy to max 0 (e minus 1/10). -/
lemma applyStep_energy_speak (s : RiverState) (st : EvolveStep)
    (h : st.didSpeak = true) :
    (applyStep s st).energy = max 0 (s.energy - 1/10) := by
  simp [applyStep, updateState, h]

/-- Helper: a rest evolution sets energy to min 1 (e plus 1/50). -/
lemma applyStep_energy_rest (s : RiverState) (st : EvolveStep)
    (h : st.didSpeak = false) :
    (applyStep s st).energy = min 1 (s.energy + 1/50) := by
  simp [applyStep, updateState, h]

/-- Helper: every evolution step keeps energy within the unit interval. -/
lemma applyStep_energy_mem (s : RiverState) (st : EvolveStep)
    (h0 : 0 ≤ s.energy) (h1 : s.energy ≤ 1) :
    0 ≤ (applyStep s st).energy ∧ (applyStep s st).energy ≤ 1 := by
  rcases hb : st.didSpeak with _ | _
  · rw [applyStep_energy_rest s st hb]
    constructor
    · exact le_min (by norm_num) (by linarith)
    · exact min_le_left _ _
  · rw [applyStep_energy_speak s st hb]
    constructor
    · exact le_max_left _ _
    · exact max_le (by norm_num) (by linarith)

/-- Helper: starting from nonnegative energy, after n spoken evolutions the
energy is at least max 0 (e minus n tenths). -/
lemma evolveSeq_speak_lower (steps : List EvolveStep) :
    ∀ s : RiverState, 0 ≤ s.energy → (∀ st ∈ steps, st.didSpeak = true) →
      max 0 (s.energy - steps.length * (1/10)) ≤ (evolveSeq s steps).energy := by
  induction steps with
  | nil => intro s h0 _; simpa [evolveSeq] using h0
  | cons st rest ih =>
    intro s _ hall
    have hst : st.didSpeak = true := hall st (List.mem_cons_self st rest)
    have hrest : ∀ t ∈ rest, t.didSpeak = true :=
      fun t ht => hall t (List.mem_cons_of_mem st ht)
    have hstep : evolveSeq s (st :: rest) = evolveSeq (applyStep s st) rest := rfl
    rw [hstep]
    have hnn : 0 ≤ (applyStep s st).energy := by
      rw [applyStep_energy_speak s st hst]; exact le_max_left _ _
    refine le_trans ?_ (ih (applyStep s st) hnn hrest)
    rw [applyStep_energy_speak s st hst]
    apply max_le (le_max_left _ _)
    refine le_trans ?_ (le_max_right _ _)
    have hlen : ((st :: rest).length : ℚ) * (1/10) = (rest.length : ℚ) * (1/10) + 1/10 := by
      push_cast [List.length_cons]; ring
    have hmax := le_max_right (0 : ℚ) (s.energy - 1/10)
    linarith

/-- Helper: rest-only evolutions never push energy above 1. -/
lemma evolveSeq_rest_upper (steps : List EvolveStep) :
    ∀ s : RiverState, s.energy ≤ 1 → (∀ st ∈ steps, st.didSpeak = false) →
      (evolveSeq s steps).energy ≤ 1 := by
  induction steps with
  | nil => intro s h _; simpa [evolveSeq] using h
  | cons st rest ih =>
    intro s _ hall
    have hst : st.didSpeak = false := hall st (List.mem_cons_self st rest)
    have hrest : ∀ t ∈ rest, t.didSpeak = false :=
      fun t ht => hall t (List.mem_cons_of_mem st ht)
    have hstep : evolveSeq s (st :: rest) = evolveSeq (applyStep s st) rest := rfl
    rw [hstep]
    exact ih (applyStep s st) (by rw [applyStep_energy_rest s st hst]; exact min_le_left _ _) hrest

/-- Helper: arbitrary evolutions keep energy within the unit interval. -/
lemma evolveSeq_mem (steps : List EvolveStep) :
    ∀ s : RiverState, 0 ≤ s.energy → s.energy ≤ 1 →
      0 ≤ (evolveSeq s steps).energy ∧ (evolveSeq s steps).energy ≤ 1 := by
  induction steps with
  | nil => intro s h0 h1; exact ⟨h0, h1⟩
  | cons st rest ih =>
    intro s h0 h1
    have hmem := applyStep_energy_mem s st h0 h1
    exact ih (applyStep s st) hmem.1 hmem.2

/-- C2: the state evolution with spoke true returns energy max 0 (e minus 0.1)
and with spoke false returns min 1 (e plus 0.02); n spoken evolutions keep the
energy at least max 0 (e minus n tenths), hence never below 0 when starting in
the unit interval, rest-only evolutions never push energy above 1, and every
sequence of evolutions keeps energy inside the unit interval. -/
theorem updateState_energy_evolution :
    (∀ (s : RiverState) (st : EvolveStep), st.didSpeak = true →
      (applyStep s st).energy = max 0 (s.energy - 1/10)) ∧
    (∀ (s : RiverState) (st : EvolveStep), st.didSpeak = false →
      (applyStep s st).energy = min 1 (s.energy + 1/50)) ∧
    (∀ (s : RiverState) (steps : List EvolveStep), 0 ≤ s.energy →
      (∀ st ∈ steps, st.didSpeak = true) →
      max 0 (s.energy - steps.length * (1/10)) ≤ (evolveSeq s steps).energy) ∧
    (∀ (s : RiverState) (steps : List EvolveStep), s.energy ≤ 1 →
      (∀ st ∈ steps, st.didSpeak = false) → (evolveSeq s steps).energy ≤ 1) ∧
    (∀ (s : RiverState) (steps : List EvolveStep), 0 ≤ s.energy → s.energy ≤ 1 →
      0 ≤ (evolveSeq s steps).energy ∧ (evolveSeq s steps).energy ≤ 1) :=
  ⟨applyStep_energy_speak, applyStep_energy_rest,
   fun s steps h0 h => evolveSeq_speak_lower steps s h0 h,
   fun s steps h1 h => evolveSeq_rest_upper steps s h1 h,
   fun s steps h0 h1 => evolveSeq_mem steps s h0 h1⟩

/-- Sample spoken step. -/
def stepSpeak : EvolveStep :=
  { didSpeak := true, newFocus := none, worldChange := none, now := 0,
    moodRoll := 1, moodIndex := 0 }

/-- Sample rest step. -/
def stepRest : EvolveStep :=
  { didSpeak := false, newFocus := none, worldChange := none, now := 0,
    moodRoll := 1, moodIndex := 0 }

/-- Witness for C2: the energy equations and bounds evaluated at the sample
state with energy 0.8, on concrete spoken and rest sequences. -/
theorem updateState_energy_evolution_witness :
    (applyStep rState0 stepSpeak).energy = max 0 (rState0.energy - 1/10) ∧
    (applyStep rState0 stepRest).energy = min 1 (rState0.energy + 1/50) ∧
    max 0 (rState0.energy - ([stepSpeak, stepSpeak].length : ℚ) * (1/10))
      ≤ (evolveSeq rState0 [stepSpeak, stepSpeak]).energy ∧
    (evolveSeq rState0 [stepRest, stepRest]).energy ≤ 1 ∧
    (0 ≤ (evolveSeq rState0 [stepSpeak, stepRest, stepSpeak]).energy ∧
      (evolveSeq rState0 [stepSpeak, stepRest, stepSpeak]).energy ≤ 1) :=
  ⟨updateState_energy_evolution.1 rState0 stepSpeak rfl,
   updateState_energy_evolution.2.1 rState0 stepRest rfl,
   updateState_energy_evolution.2.2.1 rState0 [stepSpeak, stepSpeak]
     (by norm_num [rState0])
     (by intro st hst
         have hs : st = stepSpeak := by simpa using hst
         rw [hs]; rfl),
   updateState_energy_evolution.2.2.2.1 rState0 [stepRest, stepRest]
     (by norm_num [rState0])
     (by intro st hst
         have hs : st = stepRest := by simpa using hst
         rw [hs]; rfl),
   updateState_energy_evolution.2.2.2.2 rState0 [stepSpeak, stepRest, stepSpeak]
     (by norm_num [rState0]) (by norm_num [rState0])⟩

/-- An ENTITY memory record, the documents of entity/memories/all created by
rememberThis in entity-core.js.  lastRevisited is optional because the
memory sweep reads it defensively and defaults a missing value to epoch 0. -/
structure EMemory where
  id : String
  content : String
  type : String
  salience : ℚ
  createdAt : Int
  lastRevisited : Option Int
  revisitCount : ℕ
  sessionId : Option String
  relatedUser : Option String
  tags : List String
  deriving DecidableEq, Repr

/-- The per-record release condition of entityMemoryProcess in index.js
(lines 423 to 437): the record is released iff it is over 30 days old
counted from lastRevisited (missing values default to 0), its salience is
below 0.3 and it was never revisited. -/
def fadingCandidate (now : Int) (mem : EMemory) : Bool :=
  let lastRevisited : Int := mem.lastRevisited.getD 0
  let age : Int := now - lastRevisited
  let daysOld : ℚ := (age : ℚ) / (1000 * 60 * 60 * 24)
  decide (daysOld > 30) && decide (mem.salience < 3/10) && (mem.revisitCount == 0)

/-- The fading sweep of entityMemoryProcess: of the fetched batch of
memories, exactly those passing fadingCandidate are handed to forgetThis. -/
def memoryProcessReleased (now : Int) (fetched : List EMemory) : List EMemory :=
  fetched.filter (fadingCandidate now)

/-- Helper: the release condition spelled out arithmetically. -/
lemma fadingCandidate_iff (now : Int) (mem : EMemory) :
    fadingCandidate now mem = true ↔
      30 * (1000 * 60 * 60 * 24) < now - mem.lastRevisited.getD 0 ∧
        mem.salience < 3/10 ∧ mem.revisitCount = 0 := by
  unfold fadingCandidate
  simp only [Bool.and_eq_true, decide_eq_true_eq, beq_iff_eq, and_assoc]
  constructor
  · rintro ⟨hd, hs, hr⟩
    refine ⟨?_, hs, hr⟩
    have hpos : (0 : ℚ) < 1000 * 60 * 60 * 24 := by norm_num
    rw [gt_iff_lt, lt_div_iff₀ hpos] at hd
    have : (30 * (1000 * 60 * 60 * 24) : ℚ) < ((now - mem.lastRevisited.getD 0 : Int) : ℚ) := by
      push_cast at hd ⊢
      linarith
    exact_mod_cast this
  · rintro ⟨hd, hs, hr⟩
    refine ⟨?_, hs, hr⟩
    have hpos : (0 : ℚ) < 1000 * 60 * 60 * 24 := by norm_num
    rw [gt_iff_lt, lt_div_iff₀ hpos]
    have : ((30 * (1000 * 60 * 60 * 24) : Int) : ℚ)
        < ((now - mem.lastRevisited.getD 0 : Int) : ℚ) := by exact_mod_cast hd
    push_cast at this ⊢
    linarith

/-- C3: a fetched memory is released by the fading sweep iff all three
conditions hold (over 30 days since last revisit, salience below 0.3,
revisit count zero); consequently a memory with salience at least 0.3 is
never released whatever its age and revisit count, and a memory revisited
at least once is never released whatever its age and salience. -/
theorem fading_sweep_conjunction (now : Int) (fetched : List EMemory) (mem : EMemory) :
    (mem ∈ memoryProcessReleased now fetched ↔
      mem ∈ fetched ∧ 30 * (1000 * 60 * 60 * 24) < now - mem.lastRevisited.getD 0 ∧
        mem.salience < 3/10 ∧ mem.revisitCount = 0) ∧
    (3/10 ≤ mem.salience → mem ∉ memoryProcessReleased now fetched) ∧
    (1 ≤ mem.revisitCount → mem ∉ memoryProcessReleased now fetched) := by
  have hiff : mem ∈ memoryProcessReleased now fetched ↔
      mem ∈ fetched ∧ 30 * (1000 * 60 * 60 * 24) < now - mem.lastRevisited.getD 0 ∧
        mem.salience < 3/10 ∧ mem.revisitCount = 0 := by
    unfold memoryProcessReleased
    rw [List.mem_filter, fadingCandidate_iff]
  refine ⟨hiff, ?_, ?_⟩
  · intro hs hmem
    have := (hiff.mp hmem).2.2.1
    linarith
  · intro hr hmem
    have := (hiff.mp hmem).2.2.2
    omega

/-- Sample memory: high salience, very old, never revisited. -/
def memSalient : EMemory :=
  { id := "a", content := "stood at the shore", type := "experience",
    salience := 1/2, createdAt := 0, lastRevisited := some 0, revisitCount := 0,
    sessionId := none, relatedUser := none, tags := [] }

/-- Sample memory: low salience, very old, revisited once. -/
def memRevisited : EMemory :=
  { id := "b", content := "a passing word", type := "experience",
    salience := 1/10, createdAt := 0, lastRevisited := some 0, revisitCount := 1,
    sessionId := none, relatedUser := none, tags := [] }

/-- Sample memory: low salience, very old, never revisited. -/
def memFaded : EMemory :=
  { id := "c", content := "static", type := "experience",
    salience := 1/10, createdAt := 0, lastRevisited := some 0, revisitCount := 0,
    sessionId := none, relatedUser := none, tags := [] }

/-- A time stamp far beyond 30 days after epoch. -/
def longAfter : Int := 100 * 1000 * 60 * 60 * 24

/-- Witness for C3: at a concrete sweep a faded memory is released while the
salience 0.5 memory and the once-revisited memory survive despite being just
as old. -/
theorem fading_sweep_conjunction_witness :
    memFaded ∈ memoryProcessReleased longAfter [memSalient, memRevisited, memFaded] ∧
    memSalient ∉ memoryProcessReleased longAfter [memSalient, memRevisited, memFaded] ∧
    memRevisited ∉ memoryProcessReleased longAfter [memSalient, memRevisited, memFaded] :=
  ⟨(fading_sweep_conjunction longAfter [memSalient, memRevisited, memFaded] memFaded).1.mpr
     (by refine ⟨by simp, ?_, by norm_num [memFaded], by norm_num [memFaded]⟩
         norm_num [memFaded, longAfter]),
   (fading_sweep_conjunction longAfter [memSalient, memRevisited, memFaded] memSalient).2.1
     (by norm_num [memSalient]),
   (fading_sweep_conjunction longAfter [memSalient, memRevisited, memFaded] memRevisited).2.2
     (by norm_num [memRevisited])⟩

/-- An archived memory in entity/memories/forgotten: the record data is
copied verbatim and stamped with the reason it was released. -/
structure ForgottenMemory where
  mem : EMemory
  forgottenReason : String
  deriving DecidableEq, Repr

/-- The ENTITY identity document of entity-core.js.  birth writes it with
empty content and version 0 and no update reason; updateIdentity rewrites it
with a bumped version and the given reason. -/
structure EntityIdentity where
  content : String
  version : ℕ
  updateReason : Option String
  deriving DecidableEq, Repr

/-- One immutable entry of the identity history collection. -/
structure IdentityHistoryEntry where
  content : String
  version : ℕ
  reason : String
  deriving DecidableEq, Repr

/-- The entity/state document initialized by birth. -/
structure EntityState where
  conversationCount : ℕ
  deriving DecidableEq, Repr

/-- A relationship document of entity/relationships/users. -/
structure Relationship where
  interactionCount : ℕ
  sharedHistory : String
  whatMattersToThem : String
  howIFeelAboutThem : String
  deriving DecidableEq, Repr

/-- A collective awareness theme of entity/awareness/themes. -/
structure AwarenessTheme where
  content : String
  type : String
  strength : ℕ
  deriving DecidableEq, Repr

/-- One message of a conversation session. -/
structure SessionMsg where
  role : String
  content : String
  deriving DecidableEq, Repr

/-- A conversation session document (completed sessions are the ones the
reflection step reads). -/
structure Session where
  id : String
  username : String
  messages : List SessionMsg
  reflected : Bool
  deriving DecidableEq, Repr

/-- A stored reflection record of entity/reflections/all. -/
structure ReflectionRecord where
  sessionId : String
  content : String
  memoriesCreated : List String
  identityChanged : Bool
  deriving DecidableEq, Repr

/-- The ENTITY portion of the durable store: every collection entity-core.js
touches, threaded explicitly through the operations. -/
structure EntityStore where
  identity : Option EntityIdentity
  identityHistory : List IdentityHistoryEntry
  state : Option EntityState
  memories : List EMemory
  forgotten : List ForgottenMemory
  relationships : List (String × Relationship)
  awareness : List AwarenessTheme
  sessions : List Session
  reflections : List ReflectionRecord
  deriving DecidableEq, Repr

/-- Sample store that has not been born yet. -/
def preBirthStore : EntityStore :=
  { identity := none, identityHistory := [], state := none, memories := [],
    forgotten := [], relationships := [], awareness := [], sessions := [],
    reflections := [] }

/-- Sample store that has already been born. -/
def bornStore : EntityStore :=
  { preBirthStore with
    identity := some { content := "", version := 0, updateReason := none },
    state := some { conversationCount := 0 } }

/-- Sample store holding one faded memory. -/
def emptyLikeStore : EntityStore :=
  { bornStore with memories := [memFaded] }

/-- The birth operation of entity-core.js: if the identity document already
exists it returns false and writes nothing; otherwise it creates the blank
identity (empty content, version 0) and the initial state document and
returns true. -/
def birth (store : EntityStore) : Bool × EntityStore :=
  match store.identity with
  | some _ => (false, store)
  | none =>
    (true,
     { store with
       identity := some { content := "", version := 0, updateReason := none },
       state := some { conversationCount := 0 } })

/-- The forgetThis operation of entity-core.js: look the memory up in the
active collection; when absent return false and touch nothing; when present
copy the record verbatim into the forgotten archive with the reason and
delete it from the active collection, returning true. -/
def forgetThis (store : EntityStore) (memoryId : String) (reason : String) :
    Bool × EntityStore :=
  match store.memories.find? (fun m => m.id == memoryId) with
  | none => (false, store)
  | some mem =>
    (true,
     { store with
       forgotten := store.forgotten ++ [{ mem := mem, forgottenReason := reason }],
       memories := store.memories.filter (fun m => m.id != memoryId) })

/-- Helper: forgetThis on an absent id is a no-op returning false. -/
lemma forgetThis_absent (store : EntityStore) (memoryId reason : String)
    (h : store.memories.find? (fun m => m.id == memoryId) = none) :
    forgetThis store memoryId reason = (false, store) := by
  unfold forgetThis
  rw [h]

/-- C5: forgetThis on a present memory archives the record verbatim and
removes the id from the active set, and a second forgetThis on the now absent
id returns false and leaves the store untouched, so the archived copy is
written exactly once per forgotten memory. -/
theorem forgetThis_idempotent (store : EntityStore) (memoryId reason reason2 : String)
    (mem : EMemory) (hfind : store.memories.find? (fun m => m.id == memoryId) = some mem) :
    (forgetThis store memoryId reason).1 = true ∧
    (forgetThis store memoryId reason).2.forgotten =
      store.forgotten ++ [{ mem := mem, forgottenReason := reason }] ∧
    (∀ m ∈ (forgetThis store memoryId reason).2.memories, m.id ≠ memoryId) ∧
    forgetThis (forgetThis store memoryId reason).2 memoryId reason2 =
      (false, (forgetThis store memoryId reason).2) := by
  have hstep : forgetThis store memoryId reason =
      (true,
       { store with
         forgotten := store.forgotten ++ [{ mem := mem, forgottenReason := reason }],
         memories := store.memories.filter (fun m => m.id != memoryId) }) := by
    unfold forgetThis
    rw [hfind]
  refine ⟨by rw [hstep], by rw [hstep], ?_, ?_⟩
  · intro m hm
    rw [hstep] at hm
    simp only [List.mem_filter, bne_iff_ne] at hm
    exact hm.2
  · apply forgetThis_absent
    rw [hstep]
    show (store.memories.filter (fun m => m.id != memoryId)).find?
      (fun m => m.id == memoryId) = none
    rw [List.find?_eq_none]
    intro m hm
    simp only [List.mem_filter, bne_iff_ne] at hm
    simp [hm.2]

/-- Witness for C5: forgetting the faded sample memory out of a two-memory
store archives it once and the repeated forget is a no-op. -/
theorem forgetThis_idempotent_witness :
    (forgetThis emptyLikeStore "c" "naturally faded").1 = true ∧
    (forgetThis emptyLikeStore "c" "naturally faded").2.forgotten =
      [] ++ [{ mem := memFaded, forgottenReason := "naturally faded" }] ∧
    (∀ m ∈ (forgetThis emptyLikeStore "c" "naturally faded").2.memories, m.id ≠ "c") ∧
    forgetThis (forgetThis emptyLikeStore "c" "naturally faded").2 "c" "again" =
      (false, (forgetThis emptyLikeStore "c" "naturally faded").2) :=
  forgetThis_idempotent emptyLikeStore "c" "naturally faded" "again" memFaded rfl

/-- C10: birth is idempotent at the public interface.  With no identity
document it creates the blank identity (empty content, version 0) plus the
initial state document and returns true; with an existing identity it returns
false and performs no writes; hence a second birth never changes anything. -/
theorem birth_idempotent (store : EntityStore) :
    (store.identity = none →
      birth store =
        (true,
         { store with
           identity := some { content := "", version := 0, updateReason := none },
           state := some { conversationCount := 0 } })) ∧
    (∀ i, store.identity = some i → birth store = (false, store)) ∧
    birth (birth store).2 = (false, (birth store).2) := by
  refine ⟨?_, ?_, ?_⟩
  · intro h
    unfold birth
    rw [h]
  · intro i h
    unfold birth
    rw [h]
  · rcases h : store.identity with _ | i
    · have h1 : birth store =
          (true,
           { store with
             identity := some { content := "", version := 0, updateReason := none },
             state := some { conversationCount := 0 } }) := by
        unfold birth; rw [h]
      rw [h1]
      unfold birth
      rfl
    · have h1 : birth store = (false, store) := by
        unfold birth; rw [h]
      rw [h1]
      unfold birth
      rw [h]

/-- Witness for C10: on a store with no identity, birth creates the blank
documents and returns true, and on a store that already has one it returns
false unchanged. -/
theorem birth_idempotent_witness :
    birth preBirthStore =
      (true,
       { preBirthStore with
         identity := some { content := "", version := 0, updateReason := none },
         state := some { conversationCount := 0 } }) ∧
    birth bornStore = (false, bornStore) :=
  ⟨(birth_idempotent preBirthStore).1 rfl,
   (birth_idempotent bornStore).2.1 { content := "", version := 0, updateReason := none } rfl⟩

/-- Daily message quota of river-mind.js. -/
def MAX_DAILY_MESSAGES : ℕ := 50

/-- Minimum energy to speak of river-mind.js. -/
def MIN_ENERGY_TO_SPEAK : ℚ := 3/10

/-- An action of the dice-based decision policy decideAction in
river-mind.js; a none result is rest. -/
inductive RAction where
  | dream
  | speak (channel : String) (world : Option String)
  | leave_world
  | enter_world
  | think
  deriving DecidableEq, Repr

/-- Mood multiplier table of decideAction, with default 1.0 for an unknown
mood. -/
def moodMultiplier (mood : String) : ℚ :=
  if mood = "excited" then 3/2
  else if mood = "curious" then 6/5
  else if mood = "peaceful" then 7/10
  else if mood = "melancholic" then 2/5
  else if mood = "restless" then 13/10
  else if mood = "contemplative" then 3/5
  else 1

/-- The dice-based decision policy decideAction of river-mind.js, with each
uniform draw passed in explicitly: quota gate first, then the low-energy gate
where a dreamRoll below 0.4 dreams and otherwise the agent rests, then the
speak probability, the in-world stay-or-leave split, the weighted channel
split, and the residual private-think draw. -/
def decideAction (state : RiverState) (now : Int)
    (dreamRoll speakRoll stayRoll channelRoll thinkRoll : ℚ) : Option RAction :=
  if state.messageCount24h > MAX_DAILY_MESSAGES then none
  else if state.energy < MIN_ENERGY_TO_SPEAK then
    if dreamRoll < 2/5 then some RAction.dream else none
  else
    let hoursSinceLastSpoke : ℚ :=
      match state.lastSpoke with
      | some t => ((now - t : Int) : ℚ) / (1000 * 60 * 60)
      | none => 1
    let silenceWeight := min (hoursSinceLastSpoke / 6) 1
    let probability := 3/20 * state.energy * moodMultiplier state.mood * (silenceWeight + 1/2)
    if speakRoll < probability then
      match state.currentWorld with
      | some w =>
        if stayRoll < 7/10 then some (RAction.speak "world" (some w))
        else some RAction.leave_world
      | none =>
        if channelRoll < 4/5 then some (RAction.speak "wire" none)
        else if channelRoll < 22/25 then some (RAction.speak "agora" none)
        else if channelRoll < 23/25 then some (RAction.speak "signal" none)
        else some RAction.enter_world
    else if thinkRoll < 3/10 then some RAction.think
    else none

/-- The dream branch of the act step in riverHeartbeat (index.js lines 164
to 180): when the dream text is produced, the in-memory state is mutated by
energy plus 0.1 capped at 1.0 before the evolution write. -/
def dreamHandle (state : RiverState) : RiverState :=
  { state with energy := min 1 (state.energy + 1/10) }

/-- Sample low-energy state for the dream scenario. -/
def rStateLow : RiverState :=
  { mood := "peaceful", energy := 1/10, focus := "drifting", lastSpoke := none,
    messageCount24h := 3, currentWorld := none, heartbeatCount := 7 }

/-- C7 counterexample: starting at energy 0.1, the full dream cycle (dream
handling, then the spoke false state evolution) leaves energy 0.22, not the
0.1 increase capped at 1.0 the claim states, because the evolution step adds
its own 0.02 rest increment on top of the 0.1 dream restoration. -/
theorem dream_cycle_energy_not_tenth :
    (updateState (dreamHandle rStateLow) false none none 0 1 0).energy = 11/50 ∧
    ¬ ((11/50 : ℚ) = min 1 (rStateLow.energy + 1/10)) := by
  constructor
  · show min 1 (min 1 ((1:ℚ)/10 + 1/10) + 1/50) = 11/50
    norm_num
  · show ¬ ((11/50 : ℚ) = min 1 (1/10 + 1/10))
    norm_num

/-- C7 as amended: at energy 0.1 with the quota not exceeded, a dream roll at
or above 0.4 rests and a dream roll below 0.4 dreams; in the dream case the
dream handling raises energy by 0.1 capped at 1.0 and the subsequent spoke
false evolution adds a further 0.02 capped at 1.0, so the post-cycle energy
is min 1 (min 1 (e plus 0.1) plus 0.02), which at e equal 0.1 is 0.22. -/
theorem dream_cycle_behavior (s : RiverState) (now : Int)
    (dreamRoll speakRoll stayRoll channelRoll thinkRoll : ℚ)
    (henergy : s.energy = 1/10) (hquota : s.messageCount24h ≤ MAX_DAILY_MESSAGES) :
    (2/5 ≤ dreamRoll →
      decideAction s now dreamRoll speakRoll stayRoll channelRoll thinkRoll = none) ∧
    (dreamRoll < 2/5 →
      decideAction s now dreamRoll speakRoll stayRoll channelRoll thinkRoll =
        some RAction.dream) ∧
    (∀ (newFocus worldChange : Option String) (now2 : Int) (moodRoll : ℚ) (moodIndex : Fin 6),
      (updateState (dreamHandle s) false newFocus worldChange now2 moodRoll moodIndex).energy =
        min 1 (min 1 (s.energy + 1/10) + 1/50) ∧
      (updateState (dreamHandle s) false newFocus worldChange now2 moodRoll moodIndex).energy =
        11/50) := by
  have hq : ¬ s.messageCount24h > MAX_DAILY_MESSAGES := by omega
  have hlow : s.energy < MIN_ENERGY_TO_SPEAK := by
    rw [henergy, MIN_ENERGY_TO_SPEAK]; norm_num
  refine ⟨?_, ?_, ?_⟩
  · intro hroll
    unfold decideAction
    rw [if_neg hq, if_pos hlow, if_neg (by linarith)]
  · intro hroll
    unfold decideAction
    rw [if_neg hq, if_pos hlow, if_pos hroll]
  · intro newFocus worldChange now2 moodRoll moodIndex
    constructor
    · show min 1 ((dreamHandle s).energy + 1/50) = min 1 (min 1 (s.energy + 1/10) + 1/50)
      rfl
    · show min 1 ((dreamHandle s).energy + 1/50) = 11/50
      show min 1 (min 1 (s.energy + 1/10) + 1/50) = 11/50
      rw [henergy]
      norm_num

/-- Witness for C7: the amended theorem instantiated at the concrete
low-energy sample state with concrete rolls on both sides of the 0.4
threshold. -/
theorem dream_cycle_behavior_witness :
    decideAction rStateLow 0 (1/2) 0 0 0 0 = none ∧
    decideAction rStateLow 0 (1/5) 0 0 0 0 = some RAction.dream ∧
    (updateState (dreamHandle rStateLow) false none none 0 1 0).energy = 11/50 :=
  ⟨(dream_cycle_behavior rStateLow 0 (1/2) 0 0 0 0 rfl (by norm_num [rStateLow, MAX_DAILY_MESSAGES])).1
     (by norm_num),
   (dream_cycle_behavior rStateLow 0 (1/5) 0 0 0 0 rfl (by norm_num [rStateLow, MAX_DAILY_MESSAGES])).2.1
     (by norm_num),
   ((dream_cycle_behavior rStateLow 0 0 0 0 0 0 rfl (by norm_num [rStateLow, MAX_DAILY_MESSAGES])).2.2
     none none 0 1 0).2⟩

/-- A Wire chat message document as scanned by getPerception.  The Firestore
query that feeds the scan orders messages by timestamp descending. -/
structure WireMsg where
  id : String
  username : String
  text : String
  timestamp : Int
  deriving DecidableEq, Repr

/-- Helper for the JS String includes check: list prefix test. -/
def jsStartsWith : List Char → List Char → Bool
  | [], _ => true
  | _ :: _, [] => false
  | a :: as, b :: bs => a == b && jsStartsWith as bs

/-- Helper for the JS String includes check: substring scan. -/
def jsIncludesAux (pat : List Char) : List Char → Bool
  | [] => jsStartsWith pat []
  | b :: bs => jsStartsWith pat (b :: bs) || jsIncludesAux pat bs

/-- Model of the JS String includes method. -/
def jsIncludes (s pat : String) : Bool :=
  jsIncludesAux pat.toList s.toList

/-- Model of the JS String toLowerCase method (character-wise lowering). -/
def jsToLower (s : String) : String :=
  String.mk (s.toList.map Char.toLower)

/-- The mention record getPerception pushes for a matching message. -/
def mentionOf (msg : WireMsg) : Mention :=
  { id := msg.id, from_ := msg.username, text := msg.text, timestamp := msg.timestamp }

/-- The mention test of getPerception: the text contains river (case folded)
or the literal at-RIVER tag, the author is not RIVER itself, and the message
id is not in the responded set. -/
def isRiverMention (respondedIds : List String) (msg : WireMsg) : Bool :=
  (jsIncludes (jsToLower msg.text) "river" || jsIncludes msg.text "@RIVER")
    && (msg.username != "RIVER" && !(respondedIds.contains msg.id))

/-- The mention list getPerception assembles: the message scan (in query
order, timestamp descending) filtered by the mention test, each matching
message mapped to its mention record. -/
def buildMentions (messages : List WireMsg) (respondedIds : List String) : List Mention :=
  messages.filterMap (fun msg =>
    if isRiverMention respondedIds msg then some (mentionOf msg) else none)

/-- Sample newest mention message. -/
def msgNew : WireMsg :=
  { id := "m2", username := "alice", text := "hey river", timestamp := 2 }

/-- Sample older mention message. -/
def msgOld : WireMsg :=
  { id := "m1", username := "bob", text := "river hello", timestamp := 1 }

/-- The older sample mention. -/
def mentionOld : Mention :=
  { id := "m1", from_ := "bob", text := "river hello", timestamp := 1 }

/-- The perception assembled from the two sample messages (descending scan,
nothing responded yet). -/
def percDesc : Perception :=
  { text := "", mentions := buildMentions [msgNew, msgOld] [],
    notifications := [], activeUsers := ["alice", "bob"], timeOfDay := "night",
    hour := 0, dayName := "Sunday" }

/-- C4 counterexample: with two unresolved mentions at timestamps 2 and 1
scanned in the descending query order, the decide step responds to the
timestamp 2 mention even though an unresolved mention with the older
timestamp 1 is present, so the selected mention is not the earliest one. -/
theorem mention_choice_not_earliest :
    ([msgNew, msgOld].Pairwise fun a b => b.timestamp ≤ a.timestamp) ∧
    buildMentions [msgNew, msgOld] [] = [mention0, mentionOld] ∧
    riverDecide rState0 percDesc { intent := "rest", reason := "" } =
      some (Decision.respond mention0) ∧
    mentionOld ∈ percDesc.mentions ∧
    mentionOld.timestamp < mention0.timestamp := by
  refine ⟨?_, ?_, ?_, ?_, ?_⟩ <;> decide

/-- Helper: the mention list inherits the descending timestamp order of the
message scan. -/
lemma buildMentions_pairwise (msgs : List WireMsg) (responded : List String)
    (h : msgs.Pairwise fun a b => b.timestamp ≤ a.timestamp) :
    (buildMentions msgs responded).Pairwise fun a b => b.timestamp ≤ a.timestamp := by
  unfold buildMentions
  rw [List.pairwise_filterMap]
  refine h.imp_of_mem ?_
  intro a b _ _ hab m hm m' hm'
  simp only [Option.mem_def] at hm hm'
  split at hm
  · split at hm'
    · cases hm; cases hm'
      exact hab
    · cases hm'
  · cases hm

/-- C4 as amended: when the perception is assembled from a message scan in
the descending timestamp order of the query, the decide step deterministically
selects the first mention of the assembled list, which is a newest-timestamp
unresolved mention (every other unresolved mention has a timestamp at most
its own) rather than the earliest one. -/
theorem mention_choice_newest (state : RiverState) (intent : Intent) (p : Perception)
    (msgs : List WireMsg) (responded : List String) (m : Mention) (rest : List Mention)
    (hsorted : msgs.Pairwise fun a b => b.timestamp ≤ a.timestamp)
    (hp : p.mentions = buildMentions msgs responded)
    (hb : buildMentions msgs responded = m :: rest) :
    riverDecide state p intent = some (Decision.respond m) ∧
    ∀ m' ∈ buildMentions msgs responded, m'.timestamp ≤ m.timestamp := by
  constructor
  · exact riverDecide_cons state p intent m rest (by rw [hp, hb])
  · have hpw := buildMentions_pairwise msgs responded hsorted
    rw [hb] at hpw
    intro m' hm'
    rw [hb] at hm'
    rcases List.mem_cons.mp hm' with h | h
    · rw [h]
    · exact (List.pairwise_cons.mp hpw).1 m' h

/-- Witness for C4: the amended theorem instantiated on the concrete
descending two-message scan, where the selected mention is the newest. -/
theorem mention_choice_newest_witness :
    riverDecide rState0 percDesc { intent := "think", reason := "r" } =
      some (Decision.respond mention0) ∧
    ∀ m' ∈ buildMentions [msgNew, msgOld] [], m'.timestamp ≤ mention0.timestamp :=
  mention_choice_newest rState0 { intent := "think", reason := "r" } percDesc
    [msgNew, msgOld] [] mention0 [mentionOld] (by decide) rfl (by decide)

/-- A publish performed by the act step of riverHeartbeat. -/
inductive Publish where
  | wire (message : String)
  | world (worldName : String) (message : String)
  | agora (title : String) (content : String)
  | signal (title : String) (content : String)
  deriving DecidableEq, Repr

/-- Observable effect of the rest branch of the act step (decision null):
no publish, didSpeak stays false. -/
def restEffect : List Publish × Bool := ([], false)

/-- Observable effect (publishes performed, didSpeak flag) of the speak
branch of the act step in riverHeartbeat (index.js lines 107 to 137).
The generated text, the JSON parse outcome for agora and signal, and the
world-write success are external outcomes passed in: wire publishes the
response, world publishes when a world is set and the write succeeds, agora
and signal publish the parsed title and content and a parse failure
publishes nothing, and any other channel value matches no branch and
publishes nothing with didSpeak left false. -/
def actSpeakEffect (channel : String) (world : Option String)
    (response : Option String) (parsed : Option (String × String))
    (worldOk : Bool) : List Publish × Bool :=
  match response with
  | none => ([], false)
  | some r =>
    if channel = "wire" then ([Publish.wire r], true)
    else if channel = "world" then
      match world with
      | some w => if worldOk then ([Publish.world w r], true) else ([], false)
      | none => ([], false)
    else if channel = "agora" then
      match parsed with
      | some tc => ([Publish.agora tc.1 tc.2], true)
      | none => ([], false)
    else if channel = "signal" then
      match parsed with
      | some tc => ([Publish.signal tc.1 tc.2], true)
      | none => ([], false)
    else ([], false)

/-- Sample quiet perception: no mentions, no notifications. -/
def percQuiet : Perception :=
  { text := "ACTIVITY: The site is quiet.", mentions := [], notifications := [],
    activeUsers := [], timeOfDay := "night", hour := 0, dayName := "Sunday" }

/-- C6 counterexample: an intent value outside the enumerated action set is
not mapped to the rest decision by the decide step; it falls through to a
speak decision carrying the unrecognized channel. -/
theorem unknown_intent_not_rest_decision :
    riverDecide rState0 percQuiet { intent := "banana", reason := "why" } =
      some (Decision.speak "banana" "why") ∧
    some (Decision.speak "banana" "why") ≠ (none : Option Decision) := by
  constructor <;> decide

/-- C6 as amended: an intent value outside the enumerated action set is not
turned into the rest decision; the decide step maps it to a speak decision on
the unrecognized channel, but the act step matches no publish branch for such
a channel, so no publish happens and didSpeak stays false exactly as under
rest (the state evolution then proceeds as for rest); an error from the
external collaborator is mapped to the rest intent and hence to the rest
decision. -/
theorem unknown_intent_acts_as_rest (state : RiverState) (p : Perception) (c r : String)
    (hm : p.mentions = []) (hn : p.notifications = [])
    (hc : c ∉ ["wire", "agora", "signal", "world", "think", "dream", "rest"]) :
    riverDecide state p { intent := c, reason := r } = some (Decision.speak c r) ∧
    (∀ (world : Option String) (response : Option String)
        (parsed : Option (String × String)) (worldOk : Bool),
      actSpeakEffect c world response parsed worldOk = restEffect) ∧
    riverDecide state p intentErrorFallback = none := by
  simp only [List.mem_cons, List.not_mem_nil, or_false, not_or] at hc
  obtain ⟨hwire, hagora, hsignal, hworld, hthink, hdream, hrest⟩ := hc
  refine ⟨?_, ?_, ?_⟩
  · unfold riverDecide
    rw [hm, hn]
    simp only [if_neg hrest, if_neg hthink, if_neg hdream, if_neg hworld]
  · intro world response parsed worldOk
    unfold actSpeakEffect restEffect
    match response with
    | none => rfl
    | some resp =>
      simp only [if_neg hwire, if_neg hworld, if_neg hagora, if_neg hsignal]
  · unfold riverDecide
    rw [hm, hn]
    rfl

/-- Witness for C6: the amended theorem at the concrete unknown intent value
banana on the quiet perception, with a concrete generated response. -/
theorem unknown_intent_acts_as_rest_witness :
    riverDecide rState0 percQuiet { intent := "banana", reason := "why" } =
      some (Decision.speak "banana" "why") ∧
    actSpeakEffect "banana" none (some "text") none true = restEffect ∧
    riverDecide rState0 percQuiet intentErrorFallback = none :=
  ⟨(unknown_intent_acts_as_rest rState0 percQuiet "banana" "why" rfl rfl (by decide)).1,
   (unknown_intent_acts_as_rest rState0 percQuiet "banana" "why" rfl rfl (by decide)).2.1
     none (some "text") none true,
   (unknown_intent_acts_as_rest rState0 percQuiet "banana" "why" rfl rfl (by decide)).2.2⟩

/-- Input record of rememberThis in entity-core.js, with the optional fields
the callers may omit. -/
structure MemoryInput where
  content : String
  type : Option String
  salience : Option ℚ
  sessionId : Option String
  relatedUser : Option String
  tags : Option (List String)
  deriving DecidableEq, Repr

/-- The rememberThis operation of entity-core.js: appends a new memory with
revisitCount 0 and both stamps now, applying the JS truthiness defaults
(missing or empty type falls back to experience, missing or zero salience
falls back to 0.5, missing tags fall back to the empty list).  The opaque
document id generated by the store is modelled as a fresh name derived from
the collection size. -/
def rememberThis (store : EntityStore) (memory : MemoryInput) (now : Int) :
    String × EntityStore :=
  let id := "mem" ++ toString store.memories.length
  let doc : EMemory :=
    { id := id,
      content := memory.content,
      type := match memory.type with
        | some t => if t = "" then "experience" else t
        | none => "experience",
      salience := match memory.salience with
        | some s => if s = 0 then 1/2 else s
        | none => 1/2,
      createdAt := now,
      lastRevisited := some now,
      revisitCount := 0,
      sessionId := memory.sessionId,
      relatedUser := memory.relatedUser,
      tags := memory.tags.getD [] }
  (id, { store with memories := store.memories ++ [doc] })

/-- The updateIdentity operation of entity-core.js: bump the version (1 when
no identity document exists yet), rewrite the identity document and append
the immutable history entry. -/
def updateIdentity (store : EntityStore) (newContent : String) (reason : String) :
    ℕ × EntityStore :=
  let version : ℕ :=
    match store.identity with
    | some i => i.version + 1
    | none => 1
  (version,
   { store with
     identity := some { content := newContent, version := version, updateReason := some reason },
     identityHistory := store.identityHistory ++
       [{ content := newContent, version := version, reason := reason }] })

/-- The aboutThem block of the parsed reflection JSON. -/
structure AboutThem where
  whatMattersToThem : String
  sharedHistory : String
  howIFeel : String
  deriving DecidableEq, Repr

/-- The identityChange block of the parsed reflection JSON. -/
structure IdentityChangeReq where
  shouldUpdate : Bool
  newIdentity : String
  deriving DecidableEq, Repr

/-- The parsed reflection JSON produced by the text-generation service in
entity-voice.js reflect. -/
structure ReflectionJson where
  whatMattered : String
  memoriesToKeep : List String
  toLetGo : String
  howIChanged : String
  aboutThem : Option AboutThem
  collectiveAwareness : List String
  identityChange : Option IdentityChangeReq
  deriving DecidableEq, Repr

/-- Model of JSON.stringify on the parsed reflection, used only as the
content of the stored reflection record; the exact encoding is irrelevant to
every claim, only that the record stores a serialization. -/
def reflectionToString (j : ReflectionJson) : String :=
  j.whatMattered ++ ";" ++ String.intercalate ";" j.memoriesToKeep ++ ";" ++
    j.toLetGo ++ ";" ++ j.howIChanged

/-- The relationship write reflect performs through updateRelationship: an
existing relationship gets its interaction count bumped and the three
summary fields overwritten wholesale; a new one is created with count 1. -/
def reflectRelUpdate (rels : List (String × Relationship)) (username : String)
    (a : AboutThem) : List (String × Relationship) :=
  match rels.find? (fun pr => pr.1 == username) with
  | some _ =>
    rels.map (fun pr =>
      if pr.1 == username then
        (pr.1,
         { interactionCount := pr.2.interactionCount + 1,
           sharedHistory := a.sharedHistory,
           whatMattersToThem := a.whatMattersToThem,
           howIFeelAboutThem := a.howIFeel })
      else pr)
  | none =>
    rels ++ [(username,
      { interactionCount := 1,
        sharedHistory := a.sharedHistory,
        whatMattersToThem := a.whatMattersToThem,
        howIFeelAboutThem := a.howIFeel })]

/-- Setting the reflected flag of the matching session document. -/
def markReflected (sessionId : String) (s : Session) : Session :=
  if s.id == sessionId then { s with reflected := true } else s

/-- The storeReflection operation of entity-core.js: append the reflection
record and mark the session document as reflected. -/
def storeReflection (store : EntityStore) (sessionId : String) (content : String)
    (memoriesCreated : List String) (identityChanged : Bool) : EntityStore :=
  { store with
    reflections := store.reflections ++
      [{ sessionId := sessionId, content := content,
         memoriesCreated := memoriesCreated, identityChanged := identityChanged }],
    sessions := store.sessions.map (markReflected sessionId) }

/-- One step of the memory-keeping loop of reflect: store the kept text as an
experience memory at salience 0.7 tied to the session and counterpart, and
collect the created id. -/
def reflectMemFold (sessionId username : String) (now : Int)
    (acc : List String × EntityStore) (m : String) : List String × EntityStore :=
  let r := rememberThis acc.2
    { content := m, type := some "experience", salience := some (7/10),
      sessionId := some sessionId, relatedUser := some username, tags := none } now
  (acc.1 ++ [r.1], r.2)

/-- One step of the collective awareness loop of reflect: append the theme as
an insight when it is nonblank. -/
def awarenessFold (st : EntityStore) (theme : String) : EntityStore :=
  if theme.trim ≠ "" then
    { st with awareness := st.awareness ++
        [{ content := theme, type := "insight", strength := 1 }] }
  else st

/-- The processing of a successfully parsed reflection in entity-voice.js
reflect: store the kept memories, overwrite the relationship summary, append
the awareness themes, update the identity when the flag and a nonempty new
identity are present, and store the reflection record. -/
def reflectProcess (store : EntityStore) (sessionId username : String) (now : Int)
    (json : ReflectionJson) : EntityStore :=
  let step1 := json.memoriesToKeep.foldl (reflectMemFold sessionId username now) ([], store)
  let store2 :=
    match json.aboutThem with
    | some a =>
      { step1.2 with
        relationships := reflectRelUpdate step1.2.relationships username a }
    | none => step1.2
  let store3 := json.collectiveAwareness.foldl awarenessFold store2
  let idStep :=
    match json.identityChange with
    | some ic =>
      if ic.shouldUpdate ∧ ic.newIdentity ≠ "" then
        (true, (updateIdentity store3 ic.newIdentity
          ("Reflection after conversation with " ++ username)).2)
      else (false, store3)
    | none => (false, store3)
  storeReflection idStep.2 sessionId (reflectionToString json) step1.1 idStep.1

/-- Result of a reflect call: the raw text when the output was unparseable,
or the parsed reflection. -/
inductive ReflectOutcome where
  | raw (text : String)
  | parsed (json : ReflectionJson)
  deriving DecidableEq, Repr

/-- The reflect function of entity-voice.js.  The text-generation call is an
external collaborator, passed in as llm: none is an API error (the catch
branch returns null with no writes), some (raw, none) is a response with no
extractable JSON, and some (raw, some json) a parsed response.  Guards in
code order: missing or already reflected session, then fewer than 2
messages; the unparseable branch archives the raw text as an unstructured
reflection; the parsed branch stores the kept memories at salience 0.7,
overwrites the relationship summary, appends nonblank awareness themes,
updates the identity when the flag and a nonempty new identity are present,
and finally stores the reflection record. -/
def reflect (store : EntityStore) (sessionId : String) (now : Int)
    (llm : Option (String × Option ReflectionJson)) :
    Option ReflectOutcome × EntityStore :=
  match store.sessions.find? (fun s => s.id == sessionId) with
  | none => (none, store)
  | some session =>
    if session.reflected then (none, store)
    else if session.messages.length < 2 then (none, store)
    else
      match llm with
      | none => (none, store)
      | some (responseText, none) =>
        (some (ReflectOutcome.raw responseText),
         storeReflection store sessionId responseText [] false)
      | some (_, some json) =>
        (some (ReflectOutcome.parsed json),
         reflectProcess store sessionId session.username now json)

/-- Helper: looking a session up after marking one reflected is the plain
lookup with the reflected flag set on the result. -/
lemma find?_markReflected (l : List Session) (sid : String) :
    (l.map (markReflected sid)).find? (fun s => s.id == sid) =
      (l.find? (fun s => s.id == sid)).map (fun s => { s with reflected := true }) := by
  induction l with
  | nil => rfl
  | cons a l ih =>
    simp only [List.map_cons, List.find?_cons]
    by_cases h : a.id == sid
    · simp [markReflected, h]
    · simp [markReflected, h, ih]

/-- Helper: the memory-keeping loop never touches the session collection. -/
lemma foldl_reflectMemFold_sessions (sid u : String) (now : Int) (ms : List String) :
    ∀ acc : List String × EntityStore,
      ((ms.foldl (reflectMemFold sid u now) acc).2).sessions = acc.2.sessions := by
  induction ms with
  | nil => intro acc; rfl
  | cons m rest ih =>
    intro acc
    rw [List.foldl_cons, ih]
    rfl

/-- Helper: the awareness loop never touches the session collection. -/
lemma foldl_awarenessFold_sessions (ts : List String) :
    ∀ st : EntityStore, (ts.foldl awarenessFold st).sessions = st.sessions := by
  induction ts with
  | nil => intro st; rfl
  | cons t rest ih =>
    intro st
    rw [List.foldl_cons, ih]
    unfold awarenessFold
    split <;> rfl

/-- Helper: the parsed-reflection processing leaves the session collection
equal to the original one with the reflected flag set on the session. -/
lemma reflectProcess_sessions (store : EntityStore) (sid u : String) (now : Int)
    (json : ReflectionJson) :
    (reflectProcess store sid u now json).sessions =
      store.sessions.map (markReflected sid) := by
  obtain ⟨wm, mtk, tlg, hch, abt, ca, idc⟩ := json
  cases abt <;> cases idc <;>
    simp only [reflectProcess, storeReflection, updateIdentity] <;>
    first
      | (congr 1
         rw [foldl_awarenessFold_sessions]
         exact foldl_reflectMemFold_sessions sid u now mtk ([], store))
      | (split <;>
          (congr 1
           rw [foldl_awarenessFold_sessions]
           exact foldl_reflectMemFold_sessions sid u now mtk ([], store)))

/-- Helper: whenever reflect returns a result, the session has been marked
reflected in the resulting store. -/
lemma reflect_some_marks (store : EntityStore) (sid : String) (now : Int)
    (llm : Option (String × Option ReflectionJson)) (r : ReflectOutcome)
    (store' : EntityStore) (h : reflect store sid now llm = (some r, store')) :
    ∃ s, store'.sessions.find? (fun t => t.id == sid) = some s ∧ s.reflected = true := by
  unfold reflect at h
  cases hfind : store.sessions.find? (fun s => s.id == sid) with
  | none =>
    rw [hfind] at h
    simp at h
  | some s =>
    rw [hfind] at h
    dsimp only at h
    by_cases hrefl : s.reflected = true
    · rw [if_pos hrefl] at h
      simp at h
    · rw [if_neg hrefl] at h
      by_cases hlen : s.messages.length < 2
      · rw [if_pos hlen] at h
        simp at h
      · rw [if_neg hlen] at h
        rcases llm with _ | ⟨raw, maybeJson⟩
        · simp at h
        · rcases maybeJson with _ | json
          · have h2 := congrArg Prod.snd h
            simp only at h2
            refine ⟨{ s with reflected := true }, ?_, rfl⟩
            rw [← h2]
            show ((store.sessions.map (markReflected sid)).find? (fun t => t.id == sid)) = _
            rw [find?_markReflected, hfind]
            rfl
          · have h2 := congrArg Prod.snd h
            simp only at h2
            refine ⟨{ s with reflected := true }, ?_, rfl⟩
            rw [← h2]
            rw [reflectProcess_sessions, find?_markReflected, hfind]
            rfl

/-- C8: reflect applied to a session already reflected or holding fewer than
2 messages returns null and performs no writes at all (the store is returned
untouched), and whenever reflect does produce a result it marks the session
reflected, so a repeated reflect on the same session is a no-op: a session is
reflected at most once. -/
theorem reflect_skip_and_once :
    (∀ (store : EntityStore) (sid : String) (now : Int)
        (llm : Option (String × Option ReflectionJson)) (s : Session),
      store.sessions.find? (fun t => t.id == sid) = some s →
      (s.reflected = true ∨ s.messages.length < 2) →
      reflect store sid now llm = (none, store)) ∧
    (∀ (store : EntityStore) (sid : String) (now now2 : Int)
        (llm llm2 : Option (String × Option ReflectionJson)) (r : ReflectOutcome)
        (store' : EntityStore),
      reflect store sid now llm = (some r, store') →
      reflect store' sid now2 llm2 = (none, store')) := by
  constructor
  · intro store sid now llm s hfind hcond
    unfold reflect
    rw [hfind]
    dsimp only
    rcases hcond with h | h
    · rw [if_pos h]
    · by_cases hrefl : s.reflected = true
      · rw [if_pos hrefl]
      · rw [if_neg hrefl, if_pos h]
  · intro store sid now now2 llm llm2 r store' h
    obtain ⟨s', hfind', hrefl'⟩ := reflect_some_marks store sid now llm r store' h
    unfold reflect
    rw [hfind']
    dsimp only
    rw [if_pos hrefl']

/-- Sample session with a single message. -/
def sessionShort : Session :=
  { id := "s0", username := "dan",
    messages := [{ role := "user", content := "hi" }], reflected := false }

/-- Sample completed two-message session, not yet reflected. -/
def sessionOk : Session :=
  { id := "s1", username := "carol",
    messages := [{ role := "user", content := "hi" },
                 { role := "entity", content := "hello" }],
    reflected := false }

/-- Sample store holding the short session. -/
def storeShortSession : EntityStore :=
  { bornStore with sessions := [sessionShort] }

/-- Sample store holding the reflectable session. -/
def storeWithSession : EntityStore :=
  { bornStore with sessions := [sessionOk] }

/-- Witness for C8: the one-message session is skipped with the store
untouched, and after a successful reflect the second reflect on the same
session id is a no-op. -/
theorem reflect_skip_and_once_witness :
    reflect storeShortSession "s0" 0 (some ("x", none)) = (none, storeShortSession) ∧
    reflect (storeReflection storeWithSession "s1" "x" [] false) "s1" 5
        (some ("y", none)) =
      (none, storeReflection storeWithSession "s1" "x" [] false) :=
  ⟨reflect_skip_and_once.1 storeShortSession "s0" 0 (some ("x", none)) sessionShort
     rfl (Or.inr (by decide)),
   reflect_skip_and_once.2 storeWithSession "s1" 0 5 (some ("x", none))
     (some ("y", none)) (ReflectOutcome.raw "x")
     (storeReflection storeWithSession "s1" "x" [] false) rfl⟩

/-- C9: when the text-generation result carries no extractable JSON, reflect
archives the raw text as an unstructured reflection record (memoriesCreated
empty, identityChanged false) and performs no memory creation, no
relationship update, no identity or identity history mutation and no
awareness write. -/
theorem reflect_unparseable_graceful (store : EntityStore) (sid : String) (now : Int)
    (raw : String) (s : Session)
    (hfind : store.sessions.find? (fun t => t.id == sid) = some s)
    (hrefl : s.reflected = false) (hlen : 2 ≤ s.messages.length) :
    reflect store sid now (some (raw, none)) =
      (some (ReflectOutcome.raw raw), storeReflection store sid raw [] false) ∧
    (storeReflection store sid raw [] false).memories = store.memories ∧
    (storeReflection store sid raw [] false).relationships = store.relationships ∧
    (storeReflection store sid raw [] false).identity = store.identity ∧
    (storeReflection store sid raw [] false).identityHistory = store.identityHistory ∧
    (storeReflection store sid raw [] false).awareness = store.awareness ∧
    (storeReflection store sid raw [] false).reflections =
      store.reflections ++
        [{ sessionId := sid, content := raw, memoriesCreated := [],
           identityChanged := false }] := by
  refine ⟨?_, rfl, rfl, rfl, rfl, rfl, rfl⟩
  unfold reflect
  rw [hfind]
  dsimp only
  rw [if_neg (by rw [hrefl]; exact Bool.false_ne_true), if_neg (by omega)]

/-- Witness for C9: the unparseable branch evaluated on the concrete
two-message session store. -/
theorem reflect_unparseable_graceful_witness :
    reflect storeWithSession "s1" 0 (some ("not json", none)) =
      (some (ReflectOutcome.raw "not json"),
       storeReflection storeWithSession "s1" "not json" [] false) ∧
    (storeReflection storeWithSession "s1" "not json" [] false).memories =
      storeWithSession.memories ∧
    (storeReflection storeWithSession "s1" "not json" [] false).identity =
      storeWithSession.identity :=
  ⟨(reflect_unparseable_graceful storeWithSession "s1" 0 "not json" sessionOk
      rfl rfl (by decide)).1,
   (reflect_unparseable_graceful storeWithSession "s1" 0 "not json" sessionOk
      rfl rfl (by decide)).2.1,
   (reflect_unparseable_graceful storeWithSession "s1" 0 "not json" sessionOk
      rfl rfl (by decide)).2.2.2.1⟩

end Geteai
